import Mathlib

/-!
Shallow embedding of `testsuite/cli/src/main.rs` (the Libra interactive
client front end): secret acquisition, waypoint (trust anchor) resolution,
session bootstrap, and the interactive command dispatch loop.

Side effects are made explicit: console output becomes structured `Output`
values, observable bootstrap actions become `Event` values, and the
environment (environment variables, terminal reads, the network, the
client proxy) is passed in as a `World` record of oracles.
-/

namespace LibraCli

/-- Modelled from the spec: the `Waypoint` (trust anchor) type lives in the
external `libra_types` crate, whose sources are not part of this file set.
The spec describes it as a verifiable checkpoint value parsed from trimmed
text, where an empty or unparsable body is a parse failure. We model the
anchor as its parsed textual value, with parsing failing on empty input. -/
structure Waypoint where
  value : String
  deriving DecidableEq, Repr

/-- Modelled from the spec: fallible parsing of a trust anchor from text
(`Waypoint::from_str` in `libra_types`). Empty input is unparsable. -/
def Waypoint.fromStr (s : String) : Except String Waypoint :=
  if s = "" then .error "empty waypoint string" else .ok ⟨s⟩

/-- Embedding of Rust `str::trim`: remove leading and trailing whitespace
characters (computed structurally over the character list). -/
def strTrim (s : String) : String :=
  String.mk (((s.data.dropWhile Char.isWhitespace).reverse.dropWhile
    Char.isWhitespace).reverse)

/-- Result of one blocking HTTP GET: either a transport-level failure or a
response carrying a status code and a text body. -/
inductive HttpResult where
  | transportErr (msg : String)
  | response (status : Nat) (body : String)
  deriving DecidableEq, Repr

/-- The network oracle seen by `retrieve_waypoint`: whether
`reqwest::blocking::ClientBuilder::new().build()` succeeds, and the
response returned for a GET on a given URL. -/
structure Network where
  clientBuildOk : Bool
  fetch : String → HttpResult

/-- The error message produced by `error_for_status().map_err(...)` in
`retrieve_waypoint`: `"Failed to retrieve waypoint from URL {url}"`. -/
def statusErrMsg (url : String) : String :=
  "Failed to retrieve waypoint from URL " ++ url

/-- Embedding of `retrieve_waypoint(url_str)`. Returns the `anyhow::Result`
value together with the list of URLs actually fetched (one GET is issued by
`client.get(url_str).send()`; a transport error still counts as an issued
GET). `error_for_status` fails exactly on client/server error statuses
(400..=599); the body is then trimmed and parsed with `Waypoint::from_str`. -/
def retrieve_waypoint (net : Network) (url_str : String) :
    Except String Waypoint × List String :=
  if net.clientBuildOk then
    match net.fetch url_str with
    | .transportErr e => (.error e, [url_str])
    | .response status body =>
      if 400 ≤ status ∧ status ≤ 599 then
        (.error (statusErrMsg url_str), [url_str])
      else
        (Waypoint.fromStr (strTrim body), [url_str])
  else
    (.error "client build error", [])

/-- The panic message in `main` when waypoint retrieval fails:
`"Failure to retrieve a waypoint from {url_str}: {e}"`. -/
def waypointPanicMsg (url e : String) : String :=
  "Failure to retrieve a waypoint from " ++ url ++ ": " ++ e

/-- Embedding of the waypoint resolution in `main` (lines 124-135):
`args.waypoint.unwrap_or_else(|| args.waypoint_url ... retrieve_waypoint ...)`.
A literal waypoint is used unchanged and the URL closure is never run; an
error result models the `panic!` (fatal, no retry). Second component: the
list of URLs fetched. -/
def resolve_waypoint_main (net : Network) (waypoint : Option Waypoint)
    (waypoint_url : Option String) : Except String Waypoint × List String :=
  match waypoint with
  | some w => (.ok w, [])
  | none =>
    match waypoint_url with
    | some url_str =>
      match retrieve_waypoint net url_str with
      | (.ok w, calls) => (.ok w, calls)
      | (.error e, calls) => (.error (waypointPanicMsg url_str e), calls)
    | none => (.error "called Option.unwrap on a None value", [])

/-- `msg` contains `sub` as a contiguous substring. -/
def containsStr (msg sub : String) : Prop :=
  ∃ pre post, msg = pre ++ sub ++ post

/-- Which input path produced the operator secret. -/
inductive SecretSource where
  | maskedTty
  | plainStdin
  deriving DecidableEq, Repr

/-- Embedding of the secret acquisition in `main` (lines 88-101): match on
`env::var("NODE_ENV")` — `"prod"` reads from the controlling terminal with
echo suppressed (`rpassword::read_password_from_tty`), any other value reads
from stdin with echo permitted (`rpassword::read_password`), and an unset
variable takes the production (masked terminal) path. -/
def acquire_secret (nodeEnv : Option String) (ttyRead stdinRead : String) :
    SecretSource × String :=
  match nodeEnv with
  | some val => if val = "prod" then (.maskedTty, ttyRead) else (.plainStdin, stdinRead)
  | none => (.maskedTty, ttyRead)

/-- Structured console output of one dispatch-loop iteration. Formatting
details of `println!` are abstracted into constructors; `unknownCommand`
carries the offending token, `readlineError` the readline error text. -/
inductive Output where
  | timestamp
  | text (s : String)
  | help
  | unknownCommand (tok : String)
  | ctrlC
  | ctrlD
  | readlineError (msg : String)
  deriving DecidableEq, Repr

/-- A registered command: its action mutates the client-proxy state and
produces console output (including any error it reports; in the source,
`cmd.execute` returns `()` and handles its own errors). -/
structure Cmd (σ : Type) where
  execute : σ → List String → σ × List Output

/-- One result of `rl.readline("libra% ")`: the four arms of the match in
`main` (`Ok(line)`, `Err(Interrupted)`, `Err(Eof)`, `Err(err)`). -/
inductive ReadEvent where
  | line (s : String)
  | interrupted
  | eof
  | readErr (msg : String)
  deriving DecidableEq, Repr

/-- Outcome of one loop iteration: go back to the prompt (`continue` or
fall-through) or leave the loop (`break`), with the new state and the
output printed during the iteration. -/
inductive LoopOutcome (σ : Type) where
  | cont (st : σ) (out : List Output)
  | exit (st : σ) (out : List Output)
  deriving DecidableEq, Repr

/-- Whitespace tokenizer helper: accumulates the current token (reversed)
and splits at whitespace characters, dropping empty tokens. -/
def splitWs : List Char → List Char → List String
  | [], acc => if acc.isEmpty then [] else [String.mk acc.reverse]
  | c :: cs, acc =>
    if c.isWhitespace then
      (if acc.isEmpty then [] else [String.mk acc.reverse]) ++ splitWs cs []
    else
      splitWs cs (c :: acc)

/-- Modelled from the spec: `parse_cmd` lives in the external
`cli::commands` module, whose source is not in this file set; the spec says
the loop "tokenize[s] the line into whitespace-separated parameters". -/
def parse_cmd (line : String) : List String :=
  splitWs line.data []

/-- Embedding of the dispatch on the token list (lines 199-215 of `main`):
empty parameter list → continue silently; first token registered as an
alias → execute the bound command (timestamp first when verbose); otherwise
`"quit"`/`"q!"` breaks, `"help"`/`"h"` prints help, `""` continues silently,
and anything else prints an unknown-command diagnostic naming the token. -/
def dispatch_params {σ : Type} (reg : String → Option (Cmd σ)) (verbose : Bool)
    (st : σ) (params : List String) : LoopOutcome σ :=
  match params with
  | [] => .cont st []
  | p0 :: _ =>
    match reg p0 with
    | some cmd =>
      let r := cmd.execute st params
      .cont r.1 ((if verbose then [Output.timestamp] else []) ++ r.2)
    | none =>
      if p0 = "quit" ∨ p0 = "q!" then .exit st []
      else if p0 = "help" ∨ p0 = "h" then .cont st [Output.help]
      else if p0 = "" then .cont st []
      else .cont st [Output.unknownCommand p0]

/-- Embedding of one full iteration of the interactive loop (lines 194-230
of `main`): a read line is tokenized and dispatched; interrupt and
end-of-input print their farewell and break; any other readline error
prints `Error: ...` and also breaks. -/
def loop_step {σ : Type} (reg : String → Option (Cmd σ)) (verbose : Bool)
    (st : σ) (ev : ReadEvent) : LoopOutcome σ :=
  match ev with
  | .line l => dispatch_params reg verbose st (parse_cmd l)
  | .interrupted => .exit st [Output.ctrlC]
  | .eof => .exit st [Output.ctrlD]
  | .readErr e => .exit st [Output.readlineError e]

/-- Run the dispatch loop on a finite schedule of readline events, folding
`loop_step` and concatenating output; the loop stops at the first `exit`
outcome (or when the schedule is exhausted). -/
def run_loop {σ : Type} (reg : String → Option (Cmd σ)) (verbose : Bool) :
    σ → List ReadEvent → σ × List Output
  | st, [] => (st, [])
  | st, ev :: evs =>
    match loop_step reg verbose st ev with
    | .cont st2 out =>
      let r := run_loop reg verbose st2 evs
      (r.1, out ++ r.2)
    | .exit st2 out => (st2, out)

/-- Embedding of the `Args` structure parsed by structopt (chain id kept as
a bare numeric code; `required_unless` constraints are the responsibility of
the flag parser, which is out of scope). -/
structure Args where
  chain_id : Nat
  url : String
  faucet_account_file : Option String
  faucet_url : Option String
  mnemonic_file : Option String
  sync : Bool
  waypoint : Option Waypoint
  waypoint_url : Option String
  verbose : Bool
  deriving DecidableEq, Repr

/-- Account data returned by `recover_accounts_in_wallet`. -/
structure AccountData where
  index : Nat
  address : String
  deriving DecidableEq, Repr

/-- Block metadata returned by `test_validator_connection`. -/
structure BlockMetadata where
  version : Nat
  timestamp : Nat
  deriving DecidableEq, Repr

/-- Every oracle the bootstrap consults: the `NODE_ENV` variable, the two
possible secret reads, the waypoint network, and the results of the three
client-proxy operations (`ClientProxy::new`, `test_validator_connection`,
`recover_accounts_in_wallet`). -/
structure World where
  nodeEnv : Option String
  ttyRead : String
  stdinRead : String
  net : Network
  proxyOk : Bool
  connResult : Except String BlockMetadata
  recoverResult : Except String (List AccountData)

/-- Observable actions of the bootstrap phase of `main`, in program order.
`constructClient` records every argument `main` passes to
`ClientProxy::new` (the sixth is the literal `true` at line 143, the 0L
change replacing the old sync-on-recovery argument). -/
inductive Event where
  | secretFromTty
  | secretFromStdin
  | httpGet (url : String)
  | constructClient (chainId : Nat) (url : String)
      (faucetFile tcFile ddFile : String) (syncOnRecovery : Bool)
      (faucetUrl : Option String) (mnemonicFile : Option String)
      (secret : Option String) (waypoint : Waypoint)
  | testConnection
  | recoverWallet
  | recoveredAccounts (count : Nat)
  | errorReport (ctx : String) (e : String)
  | helpPrinted
  deriving DecidableEq, Repr

/-- The session state handed to the dispatch loop after a successful
bootstrap. -/
structure Session where
  waypoint : Waypoint
  meta : BlockMetadata
  deriving DecidableEq, Repr

/-- The trace event recording which input path the secret read used. -/
def secretEvent : SecretSource → Event
  | .maskedTty => .secretFromTty
  | .plainStdin => .secretFromStdin

/-- Embedding of the wallet-recovery block of `main` (lines 171-184) as its
event trace: recovery runs iff the entered secret is non-empty or a
mnemonic file path was supplied; on success the derived accounts are
reported, on failure `report_error("Error recovering Libra wallet", e)` is
called and execution falls through (non-fatal). -/
def recoveryEvents (secretLen : Nat) (mnemonicFile : Option String)
    (res : Except String (List AccountData)) : List Event :=
  if 0 < secretLen ∨ mnemonicFile.isSome then
    .recoverWallet ::
      (match res with
       | .ok accounts => [.recoveredAccounts accounts.length]
       | .error e => [.errorReport "Error recovering Libra wallet" e])
  else []

/-- Embedding of the bootstrap phase of `main` (lines 86-186): acquire the
secret, resolve the waypoint (panicking on failure), construct the client
proxy, test the validator connection, optionally recover the wallet (the
gate at line 171: secret entered OR mnemonic file supplied; a recovery
error is reported via `report_error` and the session continues), then print
help. Returns the fatal-error-or-session result and the ordered trace of
observable events. -/
def bootstrap (args : Args) (w : World) : Except String Session × List Event :=
  let sec := acquire_secret w.nodeEnv w.ttyRead w.stdinRead
  let mnemonic_string := sec.2
  let wp := resolve_waypoint_main w.net args.waypoint args.waypoint_url
  let getEvs := wp.2.map Event.httpGet
  match wp.1 with
  | .error e => (.error e, secretEvent sec.1 :: getEvs)
  | .ok waypoint =>
    let faucet_account_file := args.faucet_account_file.getD ""
    let ctorEv := Event.constructClient args.chain_id args.url
      faucet_account_file faucet_account_file faucet_account_file true
      args.faucet_url args.mnemonic_file (some mnemonic_string) waypoint
    if w.proxyOk then
      match w.connResult with
      | .error e =>
        (.error ("Not able to connect to validator at " ++ args.url ++ ". Error: " ++ e),
         secretEvent sec.1 :: getEvs ++ [ctorEv, .testConnection])
      | .ok bm =>
        (.ok ⟨waypoint, bm⟩,
         secretEvent sec.1 :: getEvs ++ [ctorEv, .testConnection] ++
           recoveryEvents mnemonic_string.length args.mnemonic_file w.recoverResult ++
           [.helpPrinted])
    else
      (.error "Failed to construct client.", secretEvent sec.1 :: getEvs ++ [ctorEv])

/-- Embedding of all of `main`: bootstrap, then (on success) the dispatch
loop driven by the readline schedule, with the verbosity flag from `Args`.
Returns the bootstrap result, the bootstrap trace, and the loop output. -/
def run_session {σ : Type} (reg : String → Option (Cmd σ)) (st : σ)
    (args : Args) (w : World) (events : List ReadEvent) :
    Except String Session × List Event × List Output :=
  match bootstrap args w with
  | (.error e, tr) => (.error e, tr, [])
  | (.ok s, tr) => (.ok s, tr, (run_loop reg args.verbose st events).2)

/-! Concrete fixtures used to evaluate the embedding at specific inputs. -/

/-- A sample command over a counter state: increments the counter and
prints a fixed line. -/
def sampleCmd : Cmd Nat :=
  ⟨fun st _ => (st + 1, [Output.text "executed"])⟩

/-- A sample registry with the single alias `demo`. -/
def sampleReg : String → Option (Cmd Nat) :=
  fun a => if a = "demo" then some sampleCmd else none

/-- A registry that binds `quit` as a command alias, exercising the fact
that registry lookup precedes the meta-token check. -/
def shadowReg : String → Option (Cmd Nat) :=
  fun a => if a = "quit" ∨ a = "demo" then some sampleCmd else none

/-- A network whose every response is `200` with body `" WP123 \n"`. -/
def sampleNet : Network :=
  ⟨true, fun _ => .response 200 " WP123 \n"⟩

/-- A network whose every response is status `404`. -/
def net404 : Network :=
  ⟨true, fun _ => .response 404 "not found"⟩

/-- Sample argument set: a literal waypoint, no mnemonic file. -/
def sampleArgs : Args :=
  ⟨1, "http://validator:8080", none, none, none, false, some ⟨"WP0"⟩, none, false⟩

/-- Sample world: test environment, non-empty stdin secret, healthy proxy
and connection, but failing wallet recovery. -/
def sampleWorldRecFail : World :=
  ⟨some "test", "", "my mnemonic words", sampleNet, true, .ok ⟨5, 1000000⟩,
   .error "bad mnemonic"⟩

end LibraCli

deriving instance DecidableEq for Except

namespace LibraCli

/-- Claim C2: whenever a literal waypoint value is supplied, the resolved trust
anchor is exactly that literal value and the list of network fetches is
empty — the URL-fetch closure (`retrieve_waypoint`) is never run,
regardless of the network and of whether a waypoint URL is also present. -/
theorem c2_literal_waypoint_no_network (net : Network) (w : Waypoint)
    (waypoint_url : Option String) :
    resolve_waypoint_main net (some w) waypoint_url = (.ok w, []) := rfl

/-- Claim C8: secret acquisition chooses its input path from the `NODE_ENV`
classifier: value `"prod"` reads from the controlling terminal with echo
suppressed, any other value reads from standard input with echo permitted,
and an unset variable takes the production (masked terminal) path. -/
theorem c8_secret_source_by_env (ttyRead stdinRead : String) :
    acquire_secret (some "prod") ttyRead stdinRead = (.maskedTty, ttyRead) ∧
    (∀ v, v ≠ "prod" →
      acquire_secret (some v) ttyRead stdinRead = (.plainStdin, stdinRead)) ∧
    acquire_secret none ttyRead stdinRead = (.maskedTty, ttyRead) := by
  refine ⟨rfl, ?_, rfl⟩
  intro v hv
  simp [acquire_secret, hv]

/-- Witness for C8 at the classifier value `"staging"` and unset. -/
theorem c8_witness :
    ("staging" : String) ≠ "prod" ∧
    acquire_secret (some "staging") "ttyIn" "stdinIn" = (.plainStdin, "stdinIn") ∧
    acquire_secret none "ttyIn" "stdinIn" = (.maskedTty, "ttyIn") :=
  ⟨by decide, (c8_secret_source_by_env "ttyIn" "stdinIn").2.1 "staging" (by decide),
   (c8_secret_source_by_env "ttyIn" "stdinIn").2.2⟩

/-- Claim C10: a non-empty parameter list whose first token is the empty string,
when that token is not a registered alias, makes the loop return to the
prompt silently: no command runs, no diagnostic is printed. -/
theorem c10_empty_token_silent {σ : Type} (reg : String → Option (Cmd σ))
    (verbose : Bool) (st : σ) (rest : List String) (h : reg "" = none) :
    dispatch_params reg verbose st ("" :: rest) = .cont st [] := by
  simp [dispatch_params, h]

/-- Witness for C10: the empty token against the sample registry. -/
theorem c10_witness :
    sampleReg "" = none ∧
    dispatch_params sampleReg false (0 : Nat) ["", "arg"] = .cont 0 [] :=
  ⟨rfl, c10_empty_token_silent sampleReg false 0 ["arg"] rfl⟩

/-- Helper: tokenizing a list of whitespace characters yields no tokens. -/
theorem splitWs_all_whitespace :
    ∀ cs : List Char, (∀ c ∈ cs, c.isWhitespace) → splitWs cs [] = []
  | [], _ => rfl
  | c :: cs, h => by
    have hc : c.isWhitespace := h c (List.mem_cons_self c cs)
    have ih := splitWs_all_whitespace cs (fun x hx => h x (List.mem_cons_of_mem c hx))
    simp [splitWs, hc, ih]

/-- Claim C7: an input line consisting only of whitespace characters produces no
dispatch action at all — no command execution, no meta-command, no
diagnostic output — and the loop returns to the prompt. -/
theorem c7_whitespace_line_no_dispatch {σ : Type} (reg : String → Option (Cmd σ))
    (verbose : Bool) (st : σ) (l : String)
    (h : ∀ c ∈ l.data, c.isWhitespace) :
    loop_step reg verbose st (.line l) = .cont st [] := by
  simp [loop_step, parse_cmd, splitWs_all_whitespace l.data h, dispatch_params]

/-- Witness for C7 on the line `" \t "`. -/
theorem c7_witness :
    (∀ c ∈ (" \t " : String).data, c.isWhitespace) ∧
    loop_step sampleReg false (0 : Nat) (.line " \t ") = .cont 0 [] :=
  ⟨by decide, c7_whitespace_line_no_dispatch sampleReg false 0 " \t " (by decide)⟩

/-- Claim C5: resolution of the first token follows the fixed precedence order of
the dispatch match: a registered alias executes its bound command even when
the token spells a meta-token (alias lookup shadows `quit`/`help`);
otherwise `"quit"`/`"q!"` leaves the loop without running any command,
`"help"`/`"h"` prints the help text and re-prompts, and any other non-empty
token prints an unknown-command diagnostic naming that token and
re-prompts. -/
theorem c5_token_resolution_order {σ : Type} (reg : String → Option (Cmd σ))
    (verbose : Bool) (st : σ) (p0 : String) (rest : List String) :
    (∀ cmd, reg p0 = some cmd →
      dispatch_params reg verbose st (p0 :: rest) =
        .cont (cmd.execute st (p0 :: rest)).1
          ((if verbose then [Output.timestamp] else []) ++
            (cmd.execute st (p0 :: rest)).2)) ∧
    (reg p0 = none → (p0 = "quit" ∨ p0 = "q!") →
      dispatch_params reg verbose st (p0 :: rest) = .exit st []) ∧
    (reg p0 = none → (p0 = "help" ∨ p0 = "h") →
      dispatch_params reg verbose st (p0 :: rest) = .cont st [Output.help]) ∧
    (reg p0 = none → ¬(p0 = "quit" ∨ p0 = "q!") → ¬(p0 = "help" ∨ p0 = "h") →
      p0 ≠ "" →
      dispatch_params reg verbose st (p0 :: rest) =
        .cont st [Output.unknownCommand p0]) := by
  refine ⟨?_, ?_, ?_, ?_⟩
  · intro cmd hreg
    simp [dispatch_params, hreg]
  · intro hreg hq
    simp [dispatch_params, hreg, hq]
  · intro hreg hh
    have hq : ¬(p0 = "quit" ∨ p0 = "q!") := by
      rcases hh with h | h <;> subst h <;> decide
    simp [dispatch_params, hreg, hq, hh]
  · intro hreg hq hh he
    simp [dispatch_params, hreg, hq, hh, he]

/-- Witness for C5: the alias `quit` bound in `shadowReg` executes its
command rather than exiting, and the unknown token `xyz` yields the
diagnostic naming `xyz`. -/
theorem c5_witness :
    shadowReg "quit" = some sampleCmd ∧
    dispatch_params shadowReg false (0 : Nat) ["quit"] =
      .cont 1 [Output.text "executed"] ∧
    sampleReg "xyz" = none ∧
    dispatch_params sampleReg false (0 : Nat) ["xyz"] =
      .cont 0 [Output.unknownCommand "xyz"] := by
  refine ⟨rfl, ?_, rfl, ?_⟩
  · have h := (c5_token_resolution_order shadowReg false 0 "quit" []).1 sampleCmd rfl
    rw [h]; rfl
  · exact (c5_token_resolution_order sampleReg false 0 "xyz" []).2.2.2 rfl
      (by decide) (by decide) (by decide)

/-- Claim C3: when only a waypoint URL is configured, `retrieve_waypoint` issues
exactly one blocking GET to that URL (also when the transport fails), and
on a non-error status the result is exactly the parse of the response body
with surrounding whitespace trimmed. -/
theorem c3_url_waypoint_single_get (net : Network) (url : String)
    (hb : net.clientBuildOk = true) :
    (retrieve_waypoint net url).2 = [url] ∧
    (∀ status body, net.fetch url = .response status body → status < 400 →
      retrieve_waypoint net url = (Waypoint.fromStr (strTrim body), [url])) := by
  constructor
  · simp only [retrieve_waypoint, hb, if_true]
    cases net.fetch url with
    | transportErr e => rfl
    | response s b =>
      by_cases h : 400 ≤ s ∧ s ≤ 599 <;> simp [h]
  · intro status body hf hs
    have h : ¬(400 ≤ status ∧ status ≤ 599) := fun hand =>
      absurd hs (not_lt.mpr hand.1)
    simp [retrieve_waypoint, hb, hf, h]

/-- Witness for C3: the end-to-end scenario — URL `http://example/wp`,
status 200, body `" WP123 \n"` — resolves to the parsed anchor `WP123`
after exactly one GET. -/
theorem c3_witness :
    sampleNet.clientBuildOk = true ∧
    sampleNet.fetch "http://example/wp" = .response 200 " WP123 \n" ∧
    200 < 400 ∧
    retrieve_waypoint sampleNet "http://example/wp" =
      (.ok ⟨"WP123"⟩, ["http://example/wp"]) := by
  refine ⟨rfl, rfl, by decide, ?_⟩
  have h := (c3_url_waypoint_single_get sampleNet "http://example/wp" rfl).2
    200 " WP123 \n" rfl (by decide)
  rw [h]
  decide

/-- Claim C4: with no literal waypoint and a waypoint URL configured, every
failure of the resolution is fatal (the `panic!` in `main`, modelled as the
error result) and its message contains the offending URL; moreover each of
the three failure modes — transport failure, client/server error status,
unparsable trimmed body — does produce such a fatal error after the single
GET. -/
theorem c4_url_failure_fatal_names_url (net : Network) (url : String) :
    (∀ msg, (resolve_waypoint_main net none (some url)).1 = .error msg →
      containsStr msg url) ∧
    (net.clientBuildOk = true →
      (∀ e, net.fetch url = .transportErr e →
        resolve_waypoint_main net none (some url) =
          (.error (waypointPanicMsg url e), [url])) ∧
      (∀ status body, net.fetch url = .response status body →
        400 ≤ status → status ≤ 599 →
        resolve_waypoint_main net none (some url) =
          (.error (waypointPanicMsg url (statusErrMsg url)), [url])) ∧
      (∀ status body pe, net.fetch url = .response status body → status < 400 →
        Waypoint.fromStr (strTrim body) = .error pe →
        resolve_waypoint_main net none (some url) =
          (.error (waypointPanicMsg url pe), [url]))) := by
  constructor
  · intro msg hmsg
    simp only [resolve_waypoint_main] at hmsg
    rcases hrw : retrieve_waypoint net url with ⟨r, calls⟩
    rw [hrw] at hmsg
    cases r with
    | ok w => simp at hmsg
    | error e =>
      simp only at hmsg
      injection hmsg with hmsg
      refine ⟨"Failure to retrieve a waypoint from ", ": " ++ e, ?_⟩
      rw [← hmsg]
      simp [waypointPanicMsg, String.append_assoc]
  · intro hb
    refine ⟨?_, ?_, ?_⟩
    · intro e hf
      simp [resolve_waypoint_main, retrieve_waypoint, hb, hf]
    · intro status body hf h1 h2
      simp [resolve_waypoint_main, retrieve_waypoint, hb, hf, h1, h2]
    · intro status body pe hf hs hp
      have h : ¬(400 ≤ status ∧ status ≤ 599) := fun hand =>
        absurd hs (not_lt.mpr hand.1)
      simp [resolve_waypoint_main, retrieve_waypoint, hb, hf, h, hp]

/-- Witness for C4: the end-to-end 404 scenario — status 404 on the
waypoint URL makes resolution fatal with a message containing the URL. -/
theorem c4_witness :
    net404.clientBuildOk = true ∧
    net404.fetch "http://example/wp" = .response 404 "not found" ∧
    400 ≤ 404 ∧ (404 : Nat) ≤ 599 ∧
    resolve_waypoint_main net404 none (some "http://example/wp") =
      (.error (waypointPanicMsg "http://example/wp" (statusErrMsg "http://example/wp")),
       ["http://example/wp"]) ∧
    containsStr
      (waypointPanicMsg "http://example/wp" (statusErrMsg "http://example/wp"))
      "http://example/wp" := by
  have h := ((c4_url_failure_fatal_names_url net404 "http://example/wp").2 rfl).2.1
    404 "not found" rfl (by decide) (by decide)
  refine ⟨rfl, rfl, by decide, by decide, h, ?_⟩
  exact (c4_url_failure_fatal_names_url net404 "http://example/wp").1 _ (by rw [h])

/-- Claim C1 (amended): a line whose first token is a registered alias always
returns the loop to the prompt, whatever the command action does; and the
only transitions out of the loop are an unaliased `"quit"`/`"q!"` token,
end-of-input, an interrupt, or a readline read error (the fourth arm of the
readline match, which the original claim omitted). -/
theorem c1_loop_exit_causes {σ : Type} (reg : String → Option (Cmd σ))
    (verbose : Bool) :
    (∀ (st : σ) (l : String) (cmd : Cmd σ) (p0 : String) (rest : List String),
      parse_cmd l = p0 :: rest → reg p0 = some cmd →
      ∃ st2 out, loop_step reg verbose st (.line l) = .cont st2 out) ∧
    (∀ (st st2 : σ) (out : List Output) (ev : ReadEvent),
      loop_step reg verbose st ev = .exit st2 out →
      ev = .interrupted ∨ ev = .eof ∨ (∃ e, ev = .readErr e) ∨
      (∃ l p0 rest, ev = .line l ∧ parse_cmd l = p0 :: rest ∧ reg p0 = none ∧
        (p0 = "quit" ∨ p0 = "q!"))) := by
  constructor
  · intro st l cmd p0 rest hpl hreg
    refine ⟨(cmd.execute st (p0 :: rest)).1,
      (if verbose then [Output.timestamp] else []) ++ (cmd.execute st (p0 :: rest)).2, ?_⟩
    simp [loop_step, hpl, dispatch_params, hreg]
  · intro st st2 out ev hstep
    cases ev with
    | interrupted => exact Or.inl rfl
    | eof => exact Or.inr (Or.inl rfl)
    | readErr e => exact Or.inr (Or.inr (Or.inl ⟨e, rfl⟩))
    | line l =>
      refine Or.inr (Or.inr (Or.inr ?_))
      simp only [loop_step] at hstep
      cases hp : parse_cmd l with
      | nil => rw [hp] at hstep; simp [dispatch_params] at hstep
      | cons p0 rest =>
        rw [hp] at hstep
        cases hr : reg p0 with
        | some cmd => rw [dispatch_params, hr] at hstep; simp at hstep
        | none =>
          by_cases hq : p0 = "quit" ∨ p0 = "q!"
          · exact ⟨l, p0, rest, rfl, hp, hr, hq⟩
          · exfalso
            by_cases hh : p0 = "help" ∨ p0 = "h"
            · rw [dispatch_params, hr, if_neg hq, if_pos hh] at hstep
              exact LoopOutcome.noConfusion hstep
            · by_cases he : p0 = ""
              · rw [dispatch_params, hr, if_neg hq, if_neg hh, if_pos he] at hstep
                exact LoopOutcome.noConfusion hstep
              · rw [dispatch_params, hr, if_neg hq, if_neg hh, if_neg he] at hstep
                exact LoopOutcome.noConfusion hstep

/-- Witness for C1 (amended): the line `"demo"`, whose token is a
registered alias of the sample registry, keeps the loop in the prompt
state. -/
theorem c1_witness :
    parse_cmd "demo" = ["demo"] ∧ sampleReg "demo" = some sampleCmd ∧
    ∃ st2 out, loop_step sampleReg false (0 : Nat) (.line "demo") = .cont st2 out :=
  ⟨by decide, rfl,
   (c1_loop_exit_causes sampleReg false).1 0 "demo" sampleCmd "demo" [] (by decide) rfl⟩

/-- Counterexample to C1 as stated: a readline read error (the `Err(err)`
arm, distinct from `Interrupted` and `Eof` and not a line of input at all)
also makes the loop exit, so quit/end-of-input/interrupt are not the only
transitions to Exiting. -/
theorem c1_counterexample :
    loop_step sampleReg false (0 : Nat) (.readErr "window resize") =
      .exit 0 [Output.readlineError "window resize"] ∧
    (match (ReadEvent.readErr "window resize" : ReadEvent) with
     | .line _ => true
     | .interrupted => true
     | .eof => true
     | .readErr _ => false) = false := by
  exact ⟨rfl, rfl⟩

/-- Helper: the wallet-recovery action appears in the recovery trace
exactly when the gate (non-empty secret OR mnemonic file supplied) holds. -/
theorem recoverWallet_mem_recoveryEvents (n : Nat) (mf : Option String)
    (res : Except String (List AccountData)) :
    Event.recoverWallet ∈ recoveryEvents n mf res ↔ (0 < n ∨ mf.isSome = true) := by
  unfold recoveryEvents
  by_cases h : 0 < n ∨ mf.isSome = true
  · simp [h]
  · cases res <;> simp [h]

/-- Helper: the recovery trace holds at most one recovery attempt. -/
theorem count_recoveryEvents_le_one (n : Nat) (mf : Option String)
    (res : Except String (List AccountData)) :
    (recoveryEvents n mf res).count Event.recoverWallet ≤ 1 := by
  unfold recoveryEvents
  by_cases h : 0 < n ∨ mf.isSome = true
  · cases res <;> simp [h, List.count_cons]
  · simp [h]

/-- Helper: a failed recovery is reported through `report_error` in the
recovery trace whenever the gate holds. -/
theorem errorReport_mem_recoveryEvents (n : Nat) (mf : Option String)
    (e : String) (h : 0 < n ∨ mf.isSome = true) :
    Event.errorReport "Error recovering Libra wallet" e ∈
      recoveryEvents n mf (.error e) := by
  simp [recoveryEvents, h]

/-- Helper: the secret-read trace event is never the recovery action. -/
theorem secretEvent_ne_recoverWallet (s : SecretSource) :
    secretEvent s ≠ Event.recoverWallet := by
  cases s <;> simp [secretEvent]

/-- Helper: HTTP fetch trace events are never the recovery action. -/
theorem count_recoverWallet_httpGets (l : List String) :
    (l.map Event.httpGet).count Event.recoverWallet = 0 := by
  induction l with
  | nil => rfl
  | cons x xs ih => simp [List.count_cons, ih]

/-- Helper: normal form of `bootstrap` when waypoint resolution, proxy
construction and the connectivity check all succeed. -/
theorem bootstrap_ok_trace (args : Args) (w : World) (wp : Waypoint)
    (bm : BlockMetadata)
    (hw : (resolve_waypoint_main w.net args.waypoint args.waypoint_url).1 = .ok wp)
    (hp : w.proxyOk = true) (hc : w.connResult = .ok bm) :
    bootstrap args w =
      (.ok ⟨wp, bm⟩,
       secretEvent (acquire_secret w.nodeEnv w.ttyRead w.stdinRead).1 ::
         ((resolve_waypoint_main w.net args.waypoint args.waypoint_url).2.map
            Event.httpGet ++
          [Event.constructClient args.chain_id args.url
             (args.faucet_account_file.getD "") (args.faucet_account_file.getD "")
             (args.faucet_account_file.getD "") true args.faucet_url
             args.mnemonic_file
             (some (acquire_secret w.nodeEnv w.ttyRead w.stdinRead).2) wp,
           .testConnection] ++
          recoveryEvents (acquire_secret w.nodeEnv w.ttyRead w.stdinRead).2.length
            args.mnemonic_file w.recoverResult ++
          [.helpPrinted])) := by
  simp only [bootstrap, hw, hp, hc, if_true]
  simp

/-- Claim C6: for a session whose bootstrap reaches the recovery step (waypoint,
proxy and connectivity all fine), wallet recovery is attempted exactly when
the entered secret is non-empty OR a mnemonic file path was supplied, it is
attempted at most once, and a recovery failure is non-fatal: the error is
reported through `report_error` and the session still reaches the help
banner and the prompt. -/
theorem c6_recovery_gate_once_nonfatal (args : Args) (w : World)
    (wp : Waypoint) (bm : BlockMetadata)
    (hw : (resolve_waypoint_main w.net args.waypoint args.waypoint_url).1 = .ok wp)
    (hp : w.proxyOk = true) (hc : w.connResult = .ok bm) :
    (Event.recoverWallet ∈ (bootstrap args w).2 ↔
      (0 < (acquire_secret w.nodeEnv w.ttyRead w.stdinRead).2.length ∨
        args.mnemonic_file.isSome = true)) ∧
    (bootstrap args w).2.count Event.recoverWallet ≤ 1 ∧
    (∀ e, w.recoverResult = .error e →
      (0 < (acquire_secret w.nodeEnv w.ttyRead w.stdinRead).2.length ∨
        args.mnemonic_file.isSome = true) →
      (bootstrap args w).1 = .ok ⟨wp, bm⟩ ∧
      Event.errorReport "Error recovering Libra wallet" e ∈ (bootstrap args w).2 ∧
      Event.helpPrinted ∈ (bootstrap args w).2) := by
  rw [bootstrap_ok_trace args w wp bm hw hp hc]
  refine ⟨?_, ?_, ?_⟩
  · rw [← recoverWallet_mem_recoveryEvents
      (acquire_secret w.nodeEnv w.ttyRead w.stdinRead).2.length
      args.mnemonic_file w.recoverResult]
    simp [List.mem_append, secretEvent_ne_recoverWallet]
    intro h
    exact absurd h.symm (secretEvent_ne_recoverWallet _)
  · have hrec := count_recoveryEvents_le_one
      (acquire_secret w.nodeEnv w.ttyRead w.stdinRead).2.length
      args.mnemonic_file w.recoverResult
    have hsec := secretEvent_ne_recoverWallet
      (acquire_secret w.nodeEnv w.ttyRead w.stdinRead).1
    have hget := count_recoverWallet_httpGets
      (resolve_waypoint_main w.net args.waypoint args.waypoint_url).2
    simp [List.count_cons, List.count_append, hsec, hget]
    omega
  · intro e hre hgate
    rw [hre]
    have hm := errorReport_mem_recoveryEvents
      (acquire_secret w.nodeEnv w.ttyRead w.stdinRead).2.length
      args.mnemonic_file e hgate
    refine ⟨rfl, ?_, ?_⟩
    · simp only [List.mem_cons, List.mem_append]
      tauto
    · simp

/-- Witness for C6: the sample world with a non-empty stdin secret and a
failing wallet recovery still bootstraps to a ready session, reporting the
recovery error. -/
theorem c6_witness :
    (resolve_waypoint_main sampleWorldRecFail.net sampleArgs.waypoint
      sampleArgs.waypoint_url).1 = .ok ⟨"WP0"⟩ ∧
    sampleWorldRecFail.proxyOk = true ∧
    sampleWorldRecFail.connResult = .ok ⟨5, 1000000⟩ ∧
    sampleWorldRecFail.recoverResult = .error "bad mnemonic" ∧
    (0 < (acquire_secret sampleWorldRecFail.nodeEnv sampleWorldRecFail.ttyRead
        sampleWorldRecFail.stdinRead).2.length ∨
      sampleArgs.mnemonic_file.isSome = true) ∧
    (bootstrap sampleArgs sampleWorldRecFail).1 = .ok ⟨⟨"WP0"⟩, ⟨5, 1000000⟩⟩ ∧
    Event.errorReport "Error recovering Libra wallet" "bad mnemonic" ∈
      (bootstrap sampleArgs sampleWorldRecFail).2 ∧
    Event.helpPrinted ∈ (bootstrap sampleArgs sampleWorldRecFail).2 := by
  have h := (c6_recovery_gate_once_nonfatal sampleArgs sampleWorldRecFail
    ⟨"WP0"⟩ ⟨5, 1000000⟩ rfl rfl rfl).2.2 "bad mnemonic" rfl (Or.inl (by decide))
  exact ⟨rfl, rfl, rfl, rfl, Or.inl (by decide), h.1, h.2.1, h.2.2⟩

/-- Claim C9: the sync flag is never read after parsing — two invocations whose
configurations differ only in the sync flag produce identical bootstrap
results, identical bootstrap traces, and identical dispatch-loop output on
every readline schedule. -/
theorem c9_sync_flag_no_effect {σ : Type} (reg : String → Option (Cmd σ))
    (st : σ) (args : Args) (w : World) (events : List ReadEvent) (b : Bool) :
    run_session reg st { args with sync := b } w events =
      run_session reg st args w events := by
  cases args
  rfl

end LibraCli
